import Mathlib

/-!
Verification of pretalx's audit-log and agenda-visibility core.

This file embeds, in Lean, the parts of the pretalx code base that the
specification's claims are about:

* `LogMixin.log_action` and `LogMixin._compute_changes` from
  `src/pretalx/common/models/mixins.py` (audit-log recording, change-set
  computation, sensitive-key redaction, serialization guard);
* the agenda visibility predicates from `src/pretalx/agenda/rules.py`;
* the retention sweep `Command.handle` from
  `src/pretalx/common/management/commands/archive_activity_logs.py`.

Python values that can appear in a log payload are modelled by the
inductive type `PyVal`; Python lists and dicts are cons-encoded so that
decidable equality can be derived.  Python dictionaries that the code
manipulates directly (payloads, snapshots) are modelled as association
lists `Dict := List (String × PyVal)` preserving insertion order, which is
how CPython dictionaries behave.  Exceptions are modelled with `Except
String`.
-/

/-- A JSON-ish Python value.  `pyobj` stands for an arbitrary object that
is not JSON-serializable (the case the serialization guard protects
against).  Lists and dicts are cons-encoded (`pylistCons`/`pydictCons`)
so that equality is derivable; `PyVal.listOf`/`PyVal.dictOf` build them
from Lean lists. -/
inductive PyVal where
  | pynone
  | pybool (b : Bool)
  | pyint (n : Int)
  | pystr (s : String)
  | pyobj (tag : String)
  | pylistNil
  | pylistCons (head tail : PyVal)
  | pydictNil
  | pydictCons (key : String) (val rest : PyVal)
deriving DecidableEq, Repr

/-- Build an encoded Python list from a Lean list. -/
def PyVal.listOf : List PyVal → PyVal
  | [] => .pylistNil
  | x :: xs => .pylistCons x (PyVal.listOf xs)

/-- Build an encoded Python dict from a Lean association list. -/
def PyVal.dictOf : List (String × PyVal) → PyVal
  | [] => .pydictNil
  | (k, v) :: xs => .pydictCons k v (PyVal.dictOf xs)

/-- Python truthiness (`bool(v)`): `None`, `False`, `0`, `""`, `[]` and
`{}` are falsy, everything else (including arbitrary objects) truthy. -/
def PyVal.truthy : PyVal → Bool
  | .pynone => false
  | .pybool b => b
  | .pyint n => n != 0
  | .pystr s => s != ""
  | .pyobj _ => true
  | .pylistNil => false
  | .pylistCons _ _ => true
  | .pydictNil => false
  | .pydictCons _ _ _ => true

/-- Whether `json.dumps` succeeds on the value: every node must be a
JSON-safe scalar, list or dict — any embedded `pyobj` makes it fail. -/
def PyVal.serializable : PyVal → Bool
  | .pynone => true
  | .pybool _ => true
  | .pyint _ => true
  | .pystr _ => true
  | .pyobj _ => false
  | .pylistNil => true
  | .pylistCons x xs => x.serializable && xs.serializable
  | .pydictNil => true
  | .pydictCons _ v rest => v.serializable && rest.serializable

/-- A Python dictionary with string keys, as an insertion-ordered
association list (CPython dicts preserve insertion order and have
pairwise-distinct keys). -/
abbrev Dict := List (String × PyVal)

/-- The keys of a dict, in order. -/
def dictKeys (d : Dict) : List String := d.map Prod.fst

/-- Python `d.get(k)`: the value stored under the first occurrence of `k`, or
Python `None` when the key is absent. -/
def dictGet (d : Dict) (k : String) : PyVal :=
  match d.find? (fun kv => kv.1 = k) with
  | some kv => kv.2
  | none => .pynone

/-- Python `d[k] = v`: overwrite in place when `k` is present (keeping its
position, as CPython does), append otherwise. -/
def dictSet (d : Dict) (k : String) (v : PyVal) : Dict :=
  if k ∈ dictKeys d then
    d.map (fun kv => if kv.1 = k then (k, v) else kv)
  else d ++ [(k, v)]

/-- Whether `pat` occurs as a contiguous substring of `hay`
(Python's `pat in hay` on strings), on character lists. -/
def charsContain (hay pat : List Char) : Bool :=
  match hay with
  | [] => pat.isEmpty
  | _ :: t => pat.isPrefixOf hay || charsContain t pat

/-- Python's `pat in hay` substring test on strings. -/
def strContains (hay pat : String) : Bool :=
  charsContain hay.toList pat.toList

/-- Python's `s.startswith(pre)` on strings, on character lists (kept
kernel-computable). -/
def strStartsWith (s pre : String) : Bool :=
  pre.toList.isPrefixOf s.toList

/-- The key union `set(old.keys()) | set(new.keys())`, determinized as: the keys of
`old` followed by the keys of `new` not already present, deduplicated. -/
def unionKeys (old new : Dict) : List String :=
  (dictKeys old ++ (dictKeys new).filter (fun k => k ∉ dictKeys old)).dedup

/-- Model of `LogMixin._compute_changes` (mixins.py:93-117): for every key present
in either snapshot, compare `old.get(key)` with `new.get(key)`; skip the
key when they are equal, otherwise record
`{"old": old_value, "new": new_value}`. -/
def compute_changes (old_data new_data : Dict) : Dict :=
  (unionKeys old_data new_data).filterMap (fun k =>
    let old_value := dictGet old_data k
    let new_value := dictGet new_data k
    if old_value = new_value then none
    else some (k, PyVal.dictOf [("old", old_value), ("new", new_value)]))

/-- The `SENSITIVE_KEYS` constant (mixins.py:14). -/
def SENSITIVE_KEYS : List String := ["password", "secret", "api_key"]

/-- The test `any(sensitive_key in key for sensitive_key in SENSITIVE_KEYS)`
(mixins.py:63). -/
def isSensitiveKey (key : String) : Bool :=
  SENSITIVE_KEYS.any (fun sensitive_key => strContains key sensitive_key)

/-- The redaction loop of `log_action` (mixins.py:62-65): every top-level
entry whose key contains a sensitive substring and whose value is truthy
is replaced by the mask `"********"`; all other entries are unchanged
(assignment to an existing key keeps its position). -/
def redactDict (d : Dict) : Dict :=
  d.map (fun kv =>
    (kv.1, if isSensitiveKey kv.1 && kv.2.truthy then PyVal.pystr "********"
           else kv.2))

example :
    compute_changes
      [("title", .pystr "A"), ("state", .pystr "x")]
      [("title", .pystr "B"), ("state", .pystr "x")]
    = [("title", PyVal.dictOf [("old", .pystr "A"), ("new", .pystr "B")])] := by
  decide

example : redactDict [("password", .pystr "hunter2"), ("name", .pystr "x")]
    = [("password", .pystr "********"), ("name", .pystr "x")] := by decide

example : redactDict [("password", .pystr "")]
    = [("password", .pystr "")] := by decide

/-! ## `LogMixin.log_action` (mixins.py:33-91) -/

/-- The fields of an entity that `log_action` consults: its primary key
(`None` when unsaved; Python allows non-integer keys), its declared
log-action namespace (`log_prefix` in the source, renamed here), and the
event/tenant it belongs to (`getattr(self, "event", None)`). -/
structure Entity where
  pk : PyVal
  log_ns : Option String
  event : Option String
deriving DecidableEq, Repr

/-- One `ActivityLog` row as created by `log_action` (mixins.py:84-91). -/
structure ActivityLog where
  event : Option String
  person : Option String
  object_pk : PyVal
  action_type : String
  data : Option PyVal
  is_orga_action : Bool
deriving DecidableEq, Repr

/-- Outcome of a non-raising `log_action` call: the created row (or
`none` for the silent no-op paths) and whether the serialization-failure
warning was emitted. -/
structure LogResult where
  entry : Option ActivityLog
  warned : Bool
deriving DecidableEq, Repr

/-- Python `isinstance(v, int)` for our values. -/
def pyIsInt : PyVal → Bool
  | .pyint _ => true
  | _ => false

/-- Truthiness of an optional value (`None` is falsy). -/
def optTruthy : Option PyVal → Bool
  | none => false
  | some v => v.truthy

/-- Decode an encoded Python dict back into an association list;
`none` when the value is not a dict (`isinstance(data, dict)` fails). -/
def toDict? : PyVal → Option Dict
  | .pydictNil => some []
  | .pydictCons k v rest => (toDict? rest).map (fun d => (k, v) :: d)
  | _ => none

/-- mixins.py:51-55: `if data is None: data = {}` followed by
`data["changes"] = changes`; item assignment on a non-dict raises. -/
def assignChanges (data : Option PyVal) (changes : Dict) :
    Except String (Option PyVal) :=
  match data with
  | none => .ok (some (PyVal.dictOf (dictSet [] "changes" (PyVal.dictOf changes))))
  | some v =>
    match toDict? v with
    | some d => .ok (some (PyVal.dictOf (dictSet d "changes" (PyVal.dictOf changes))))
    | none => .error "TypeError: item assignment on non-dict"

/-- mixins.py:57-65: if the payload is truthy, check it is a dict
(raising `TypeError` otherwise) and apply the redaction loop; a falsy
payload passes through untouched. -/
def checkAndRedact (data : Option PyVal) : Except String (Option PyVal) :=
  if optTruthy data then
    match data with
    | some v =>
      match toDict? v with
      | some d => .ok (some (PyVal.dictOf (redactDict d)))
      | none => .error "TypeError: Logged data should always be a dictionary"
    | none => .ok none
  else .ok data

/-- mixins.py:72-82: the JSON-serialization guard.  Returns the payload
that will be persisted and whether the diagnostic warning was logged: an
unserializable payload is dropped to `None` with a warning, never an
exception. -/
def serializeGuard (data : Option PyVal) : Option PyVal × Bool :=
  match data with
  | none => (none, false)
  | some v => if v.serializable then (some v, false) else (none, true)

/-- The `ActivityLog.objects.create(...)` row (mixins.py:84-91), with
`content_object or self` resolved. -/
def mkEntry (self : Entity) (action : String) (person : Option String)
    (orga : Bool) (content_object : Option Entity) (payload : Option PyVal) :
    ActivityLog :=
  { event := self.event, person := person,
    object_pk := (content_object.getD self).pk,
    action_type := action, data := payload, is_orga_action := orga }

/-- mixins.py:57-91: the tail of `log_action` — redaction, serialization
guard, and the `ActivityLog.objects.create` call. -/
def finishLog (self : Entity) (action : String) (person : Option String)
    (orga : Bool) (content_object : Option Entity) (data : Option PyVal) :
    Except String LogResult :=
  (checkAndRedact data).bind (fun data =>
    .ok { entry := some (mkEntry self action person orga content_object
            (serializeGuard data).1)
          warned := (serializeGuard data).2 })

/-- Model of `LogMixin.log_action` (mixins.py:33-91).  Returns `.ok` with the
created row (or `none` on the silent no-op paths), `.error` on the
`TypeError` raised for non-dict payloads. -/
def log_action (self : Entity) (action : String) (data : Option PyVal)
    (person : Option String) (orga : Bool) (content_object : Option Entity)
    (old_data new_data : Option Dict) : Except String LogResult :=
  -- mixins.py:36-37: unsaved or non-integer primary key → silent no-op
  if !(self.pk.truthy && pyIsInt self.pk) then .ok ⟨none, false⟩ else
  -- mixins.py:39-43: leading "." resolves against the declared namespace
  let actionResolved : Option String :=
    if strStartsWith action "." then
      match self.log_ns with
      | some p => some (p ++ action)
      | none => none
    else some action
  match actionResolved with
  | none => .ok ⟨none, false⟩
  | some action =>
    -- mixins.py:46-55: change-set computation and merge
    match old_data, new_data with
    | some od, some nd =>
      let changes := compute_changes od nd
      if changes = [] && !(optTruthy data) then .ok ⟨none, false⟩
      else if changes = [] then finishLog self action person orga content_object data
      else (assignChanges data changes).bind
        (finishLog self action person orga content_object)
    | some _, none => finishLog self action person orga content_object data
    | none, _ => finishLog self action person orga content_object data

/-! ## Agenda visibility predicates (agenda/rules.py) -/

/-- The parts of an `Event` the agenda predicates consult: `is_public`,
the `show_schedule` feature flag, whether `current_schedule` is set, and
(for the spec-modelled featured path) the show-featured flag. -/
structure AgendaEvent where
  is_public : Bool
  show_schedule : Bool
  has_current_schedule : Bool
  show_featured : Bool
deriving DecidableEq, Repr

/-- A schedule slot; only `is_visible` is consulted. -/
structure Slot where
  is_visible : Bool
deriving DecidableEq, Repr

/-- The parts of a `Submission` the agenda predicates consult. -/
structure Submission where
  pk : Option Int
  is_featured : Bool
  event : Option AgendaEvent
  slot : Option Slot
deriving DecidableEq, Repr

/-- The acting user; none of the embedded agenda predicates inspect it,
but it is threaded through faithfully. -/
structure AgendaUser where
  id : Nat
deriving DecidableEq, Repr

/-- A target carrying an `event` attribute, as dereferenced by
`is_agenda_visible` via `event = event.event` (rules.py:34).  An actual
`Event` instance appears as a target whose `event` attribute is itself
(`Event.event` is a self-reference in pretalx). -/
structure EvTarget where
  event : Option AgendaEvent
deriving DecidableEq, Repr

/-- Wrap an optional `Event` as an `is_agenda_visible` target, using the
self-referential `Event.event` property. -/
def evTargetOfEvent (e : Option AgendaEvent) : Option EvTarget :=
  e.map (fun ev => { event := some ev })

/-- Modelled from the spec: `are_featured_submissions_visible` is defined
in `pretalx/submission/rules.py`, which is not part of this source tree
(rules.py:8 only imports it).  Per the spec, an object is viewable
through featured status "if it is explicitly marked featured and the
containing scope allows showing featured items even when not fully
public"; the scope-side check is the event's show-featured flag, with an
absent event denying. -/
def are_featured_submissions_visible (user : AgendaUser)
    (event : Option AgendaEvent) : Bool :=
  match event with
  | none => false
  | some e => e.show_featured

/-- Model of `is_submission_visible_via_featured` (rules.py:15-20):
`bool(submission and submission.is_featured and
are_featured_submissions_visible(user, submission.event))`. -/
def is_submission_visible_via_featured (user : AgendaUser)
    (submission : Option Submission) : Except String Bool :=
  match submission with
  | none => .ok false
  | some s =>
    if !s.is_featured then .ok false
    else .ok (are_featured_submissions_visible user s.event)

/-- Model of `is_agenda_visible` (rules.py:32-40): dereferences `event.event`
first — an `AttributeError` for a `None` target — then checks
`bool(event and event.is_public and
event.get_feature_flag("show_schedule") and event.current_schedule)`. -/
def is_agenda_visible (user : AgendaUser) (target : Option EvTarget) :
    Except String Bool :=
  match target with
  | none => .error "AttributeError"
  | some t =>
    match t.event with
    | none => .ok false
    | some e => .ok (e.is_public && e.show_schedule && e.has_current_schedule)

/-- Model of `is_submission_visible_via_schedule` (rules.py:23-29):
`bool(submission and submission.pk and is_agenda_visible(user,
submission.event) and (submission.slot and submission.slot.is_visible))`,
with Python's short-circuit evaluation order. -/
def is_submission_visible_via_schedule (user : AgendaUser)
    (submission : Option Submission) : Except String Bool :=
  match submission with
  | none => .ok false
  | some s =>
    match s.pk with
    | none => .ok false
    | some _ =>
      (is_agenda_visible user (evTargetOfEvent s.event)).bind (fun av =>
        if !av then .ok false
        else match s.slot with
          | none => .ok false
          | some slot => .ok slot.is_visible)

/-- A target of `is_agenda_submission_visible`: either an object with a
`submission` attribute (a schedule slot, say) or a plain submission, on
which `getattr(submission, "submission", submission)` returns the
default, i.e. the object itself. -/
inductive SubTarget where
  | wrapper (submission : Option Submission)
  | plain (s : Submission)
deriving DecidableEq, Repr

/-- Python `getattr(submission, "submission", submission)` (rules.py:52): never
raises, and on `None` the default is the original `None`. -/
def getattrSubmission : Option SubTarget → Option Submission
  | none => none
  | some (.wrapper s) => s
  | some (.plain s) => some s

/-- Model of `is_agenda_submission_visible` (rules.py:50-57). -/
def is_agenda_submission_visible (user : AgendaUser)
    (target : Option SubTarget) : Except String Bool :=
  match getattrSubmission target with
  | none => .ok false
  | some s =>
    (is_submission_visible_via_schedule user (some s)).bind (fun a =>
      if a then .ok true else is_submission_visible_via_featured user (some s))

/-- A submission of the profile's event together with the ids of the
speaker profiles linked to it (the `speaker_profiles` relation used by
the filter in rules.py:68). -/
structure LinkedSubmission where
  sub : Submission
  speaker_profile_ids : List Nat
deriving DecidableEq, Repr

/-- The parts of a `SpeakerProfile` that `is_viewable_profile` consults:
its identity and its event's submissions with their speaker links. -/
structure SpeakerProfile where
  id : Nat
  event_submissions : List LinkedSubmission
deriving DecidableEq, Repr

/-- The query `profile.event.submissions.filter(speaker_profiles=profile)`
(rules.py:68), preserving store order. -/
def profileSubmissions (profile : SpeakerProfile) : List Submission :=
  (profile.event_submissions.filter
    (fun ls => profile.id ∈ ls.speaker_profile_ids)).map (fun ls => ls.sub)

/-- The `for submission in submissions` loop of `is_viewable_profile`
(rules.py:71-75): return `True` at the first submission visible via
schedule or featured, `False` after an exhausted loop. -/
def viewableLoop (user : AgendaUser) : List Submission → Except String Bool
  | [] => .ok false
  | s :: rest =>
    (is_submission_visible_via_schedule user (some s)).bind (fun a =>
      if a then .ok true
      else (is_submission_visible_via_featured user (some s)).bind (fun b =>
        if b then .ok true else viewableLoop user rest))

/-- Model of `is_viewable_profile` (rules.py:60-75). -/
def is_viewable_profile (user : AgendaUser) (profile : SpeakerProfile) :
    Except String Bool :=
  viewableLoop user (profileSubmissions profile)

/-! ## Retention sweep (`archive_activity_logs.py`) -/

/-- One stored `ActivityLog` row as the sweep sees it, with the fields
that go into an archive line (archive_activity_logs.py:161-178). -/
structure LogRow where
  id : Nat
  timestamp : Int
  event : Option String
  person : Option String
  object_id : Nat
  action_type : String
  data : Option PyVal
  is_orga_action : Bool
deriving DecidableEq, Repr

/-- The sidecar metadata file (archive_activity_logs.py:203-209). -/
structure Metadata where
  created_at : Int
  cutoff_date : Int
  event_slug : Option String
  total_logs : Nat
  batch_size : Nat
deriving DecidableEq, Repr

/-- The command's parameters (archive_activity_logs.py:24-62), plus the
operator's answer to the interactive confirmation prompt. -/
structure SweepOptions where
  older_than_days : Int
  event_slug : Option String
  archive_path : Option String
  dry_run : Bool
  batch_size : Nat
  skip_confirmation : Bool
  confirm_answer : Bool
deriving DecidableEq, Repr

/-- The mutable world the sweep touches: the log table, the archive file
contents (one record per written line), whether an archive file was
opened, and the sidecar metadata file. -/
structure SweepState where
  logs : List LogRow
  archive_lines : List LogRow
  archive_file_created : Bool
  metadata : Option Metadata
deriving DecidableEq, Repr

/-- The outcome of a run: final world, the `CommandError` message if one
was raised, and the reported counters. -/
structure SweepResult where
  state : SweepState
  err : Option String
  archived : Nat
  deleted : Nat
  processed : Nat
deriving DecidableEq, Repr

/-- The queryset `ActivityLog.objects.filter(timestamp__lt=cutoff_date)`
optionally narrowed by event (archive_activity_logs.py:86-91), in store
order.  Django querysets are lazy: re-evaluating this over the current
table models each renewed database hit. -/
def matchingLogs (logs : List LogRow) (cutoff : Int) (slug : Option String) :
    List LogRow :=
  logs.filter (fun r => r.timestamp < cutoff &&
    match slug with
    | none => true
    | some s => r.event = some s)

/-- One slice of the live queryset:
`queryset.values_list("id", flat=True)[processed : processed + batch_size]`
(archive_activity_logs.py:146-148), re-evaluated against the current
table. -/
def sliceIds (logs : List LogRow) (cutoff : Int) (slug : Option String)
    (processed batch_size : Nat) : List Nat :=
  (((matchingLogs logs cutoff slug).map (fun r => r.id)).drop
    processed).take batch_size

/-- The batch loop (archive_activity_logs.py:144-194).  Each iteration
re-evaluates the live queryset over the current table and slices it at
offset `processed` (`queryset.values_list("id", flat=True)[processed :
processed + batch_size]`); an empty slice breaks the loop.  The batch is
re-fetched by id, archived when an archive file is open, and deleted
unless dry-run.  Returns the table, the archive lines and the archived,
deleted and processed counters.  `fuel` bounds the iteration count so the
recursion is structural: every iteration advances `processed` by at least
one and the loop stops once `processed` reaches `total_count`, so the
`total_count` fuel passed by `handle` is never exhausted. -/
def sweepLoop (cutoff : Int) (slug : Option String) (batch_size : Nat)
    (dry_run archiving : Bool) (total_count : Nat) :
    Nat → List LogRow → List LogRow → Nat → Nat → Nat →
    List LogRow × List LogRow × Nat × Nat × Nat
  | 0, logs, archive, archived, deleted, processed =>
      (logs, archive, archived, deleted, processed)
  | fuel + 1, logs, archive, archived, deleted, processed =>
    if processed < total_count then
      let batch_ids := sliceIds logs cutoff slug processed batch_size
      if batch_ids = [] then (logs, archive, archived, deleted, processed)
      else
        let batch := logs.filter (fun r => r.id ∈ batch_ids)
        let archive' := if archiving then archive ++ batch else archive
        let archived' := if archiving then archived + batch.length else archived
        let logs' := if dry_run then logs
          else logs.filter (fun r => r.id ∉ batch_ids)
        let deleted' := if dry_run then deleted
          else deleted + (logs.filter (fun r => r.id ∈ batch_ids)).length
        sweepLoop cutoff slug batch_size dry_run archiving total_count fuel
          logs' archive' archived' deleted' (processed + batch_ids.length)
    else (logs, archive, archived, deleted, processed)

/-- Model of `Command.handle` (archive_activity_logs.py:64-226).  `events` is the
set of existing event slugs (for the `Event.objects.get` lookup), `now`
the current time in days. -/
def handle (opts : SweepOptions) (events : List String) (now : Int)
    (st : SweepState) : SweepResult :=
  -- archive_activity_logs.py:73-77: hard safety floor, checked first
  if opts.older_than_days < 90 then
    { state := st
      err := some "Cannot delete logs less than 90 days old (safety limit)."
      archived := 0, deleted := 0, processed := 0 }
  else
    let cutoff := now - opts.older_than_days
    let slugOk : Bool :=
      match opts.event_slug with
      | none => true
      | some s => s ∈ events
    -- archive_activity_logs.py:88-94: unknown event slug
    if !slugOk then
      { state := st, err := some "Event does not exist"
        archived := 0, deleted := 0, processed := 0 }
    else
      let total_count := (matchingLogs st.logs cutoff opts.event_slug).length
      -- archive_activity_logs.py:98-100: nothing to do
      if total_count = 0 then
        { state := st, err := none, archived := 0, deleted := 0, processed := 0 }
      -- archive_activity_logs.py:115-119: confirmation prompt
      else if !opts.dry_run && !opts.skip_confirmation && !opts.confirm_answer then
        { state := st, err := none, archived := 0, deleted := 0, processed := 0 }
      else
        -- archive_activity_logs.py:122-135: archive file only when not dry-run
        let archiving := opts.archive_path.isSome && !opts.dry_run
        let result :=
          sweepLoop cutoff opts.event_slug opts.batch_size opts.dry_run
            archiving total_count total_count st.logs st.archive_lines 0 0 0
        { state :=
            { logs := result.1
              archive_lines := result.2.1
              archive_file_created := st.archive_file_created || archiving
              -- archive_activity_logs.py:202-213: metadata sidecar
              metadata :=
                if opts.archive_path.isSome && !opts.dry_run then
                  some { created_at := now, cutoff_date := cutoff
                         event_slug := opts.event_slug
                         total_logs := result.2.2.1
                         batch_size := opts.batch_size }
                else st.metadata }
          err := none
          archived := result.2.2.1
          deleted := result.2.2.2.1
          processed := result.2.2.2.2 }

/-! ## Dictionary and change-set lemmas -/

theorem dictGet_cons_self (x : String) (v : PyVal) (d : Dict) :
    dictGet ((x, v) :: d) x = v := by
  simp [dictGet, List.find?]

theorem dictGet_cons_ne {x k : String} (v : PyVal) (d : Dict) (h : x ≠ k) :
    dictGet ((x, v) :: d) k = dictGet d k := by
  simp [dictGet, List.find?, h]

theorem mem_unionKeys {old_d new_d : Dict} {k : String} :
    k ∈ unionKeys old_d new_d ↔ k ∈ dictKeys old_d ∨ k ∈ dictKeys new_d := by
  simp [unionKeys, List.mem_dedup, List.mem_append, List.mem_filter]
  tauto

theorem mem_keys_compute_changes {old_d new_d : Dict} {k : String} :
    k ∈ dictKeys (compute_changes old_d new_d) ↔
      (k ∈ dictKeys old_d ∨ k ∈ dictKeys new_d) ∧
        dictGet old_d k ≠ dictGet new_d k := by
  rw [← mem_unionKeys]
  constructor
  · intro h
    rcases List.mem_map.mp h with ⟨kv, hkv, hfst⟩
    rcases List.mem_filterMap.mp hkv with ⟨a, ha, hfa⟩
    by_cases heq : dictGet old_d a = dictGet new_d a
    · simp [heq] at hfa
    · simp [heq] at hfa
      subst hfa
      simp at hfst
      subst hfst
      exact ⟨ha, heq⟩
  · rintro ⟨hmem, hne⟩
    apply List.mem_map.mpr
    refine ⟨(k, PyVal.dictOf [("old", dictGet old_d k), ("new", dictGet new_d k)]), ?_, rfl⟩
    apply List.mem_filterMap.mpr
    exact ⟨k, hmem, by simp [hne]⟩

theorem dictGet_compute_changes_aux (old_d new_d : Dict) (l : List String)
    (k : String) (hk : k ∈ l) (hne : dictGet old_d k ≠ dictGet new_d k) :
    dictGet (l.filterMap (fun x =>
      if dictGet old_d x = dictGet new_d x then none
      else some (x, PyVal.dictOf
        [("old", dictGet old_d x), ("new", dictGet new_d x)]))) k
    = PyVal.dictOf [("old", dictGet old_d k), ("new", dictGet new_d k)] := by
  induction l with
  | nil => cases hk
  | cons x xs ih =>
    rw [List.filterMap_cons]
    by_cases hx : dictGet old_d x = dictGet new_d x
    · rw [if_pos hx]
      rcases List.mem_cons.mp hk with h | h
      · exact absurd (h ▸ hx) hne
      · exact ih h
    · rw [if_neg hx]
      by_cases hxk : x = k
      · subst hxk
        exact dictGet_cons_self _ _ _
      · rw [dictGet_cons_ne _ _ hxk]
        rcases List.mem_cons.mp hk with h | h
        · exact absurd h.symm hxk
        · exact ih h

theorem dictGet_compute_changes {old_d new_d : Dict} {k : String}
    (hk : k ∈ dictKeys old_d ∨ k ∈ dictKeys new_d)
    (hne : dictGet old_d k ≠ dictGet new_d k) :
    dictGet (compute_changes old_d new_d) k =
      PyVal.dictOf [("old", dictGet old_d k), ("new", dictGet new_d k)] := by
  have h := dictGet_compute_changes_aux old_d new_d (unionKeys old_d new_d) k
    (mem_unionKeys.mpr hk) hne
  simpa [compute_changes] using h

/-- C3: the computed change-set contains exactly the keys, among those
present in either snapshot, whose old and new values (with `dict.get`'s
`None` default for an absent key) differ, each mapped to
`{"old": old value, "new": new value}`; keys with equal values are
absent; and on the spec's concrete example the result is exactly
`{"title": {"old": "A", "new": "B"}}` with `state` absent. -/
theorem C3_change_set (old_data new_data : Dict) (k : String) :
    (k ∈ dictKeys (compute_changes old_data new_data) ↔
      (k ∈ dictKeys old_data ∨ k ∈ dictKeys new_data) ∧
        dictGet old_data k ≠ dictGet new_data k) ∧
    ((k ∈ dictKeys old_data ∨ k ∈ dictKeys new_data) →
      dictGet old_data k ≠ dictGet new_data k →
      dictGet (compute_changes old_data new_data) k =
        PyVal.dictOf [("old", dictGet old_data k), ("new", dictGet new_data k)]) ∧
    compute_changes [("title", .pystr "A"), ("state", .pystr "x")]
        [("title", .pystr "B"), ("state", .pystr "x")] =
      [("title", PyVal.dictOf [("old", .pystr "A"), ("new", .pystr "B")])] :=
  ⟨mem_keys_compute_changes,
   fun hk hne => dictGet_compute_changes hk hne,
   by decide⟩

/-- Witness for C3 at a concrete input. -/
theorem C3_change_set_witness :
    dictGet (compute_changes [("title", .pystr "A"), ("state", .pystr "x")]
        [("title", .pystr "B"), ("state", .pystr "x")]) "title" =
      PyVal.dictOf [("old", .pystr "A"), ("new", .pystr "B")] :=
  (C3_change_set [("title", .pystr "A"), ("state", .pystr "x")]
      [("title", .pystr "B"), ("state", .pystr "x")] "title").2.1
    (by decide) (by decide)

/-! ## `log_action` lemmas -/

theorem toDict?_dictOf (d : Dict) : toDict? (PyVal.dictOf d) = some d := by
  induction d with
  | nil => rfl
  | cons kv t ih => cases kv; simp [PyVal.dictOf, toDict?, ih]

theorem dictKeys_redactDict (d : Dict) :
    dictKeys (redactDict d) = dictKeys d := by
  simp [dictKeys, redactDict, List.map_map, Function.comp]

theorem dictGet_redactDict_not_sensitive (d : Dict) (k : String)
    (h : isSensitiveKey k = false) :
    dictGet (redactDict d) k = dictGet d k := by
  induction d with
  | nil => rfl
  | cons kv t ih =>
    cases kv with
    | mk k' v =>
      simp only [redactDict, List.map_cons] at ih ⊢
      by_cases hk : k' = k
      · subst hk
        rw [dictGet_cons_self, dictGet_cons_self, h]
        simp
      · rw [dictGet_cons_ne _ _ hk, dictGet_cons_ne _ _ hk]
        exact ih

theorem dictGet_append_of_not_mem (d : Dict) (k : String) (v : PyVal)
    (h : k ∉ dictKeys d) :
    dictGet (d ++ [(k, v)]) k = v := by
  induction d with
  | nil => exact dictGet_cons_self _ _ _
  | cons kv t ih =>
    cases kv with
    | mk k' v' =>
      have hk : k' ≠ k := fun he => h (by simp [dictKeys, he])
      have ht : k ∉ dictKeys t := fun he => h (by simp [dictKeys]; tauto)
      simpa [dictGet_cons_ne _ _ hk] using ih ht

theorem dictSet_of_not_mem (d : Dict) (k : String) (v : PyVal)
    (h : k ∉ dictKeys d) : dictSet d k v = d ++ [(k, v)] := by
  simp [dictSet, h]

theorem dictKeys_append (d d' : Dict) :
    dictKeys (d ++ d') = dictKeys d ++ dictKeys d' := by
  simp [dictKeys]

theorem checkAndRedact_dict (d : Dict) :
    checkAndRedact (some (PyVal.dictOf d)) =
      .ok (some (PyVal.dictOf (redactDict d))) := by
  match d with
  | [] => rfl
  | (k, v) :: t =>
    have h2 : toDict? (PyVal.pydictCons k v (PyVal.dictOf t)) =
        some ((k, v) :: t) := toDict?_dictOf ((k, v) :: t)
    simp [checkAndRedact, optTruthy, PyVal.dictOf, PyVal.truthy, h2]

theorem finishLog_dict_ser (e : Entity) (action : String)
    (person : Option String) (orga : Bool) (co : Option Entity) (d : Dict)
    (hser : (PyVal.dictOf (redactDict d)).serializable = true) :
    finishLog e action person orga co (some (PyVal.dictOf d)) =
      .ok ⟨some (mkEntry e action person orga co
        (some (PyVal.dictOf (redactDict d)))), false⟩ := by
  simp [finishLog, checkAndRedact_dict, Except.bind, serializeGuard, hser]

theorem finishLog_dict_bad (e : Entity) (action : String)
    (person : Option String) (orga : Bool) (co : Option Entity) (d : Dict)
    (hser : (PyVal.dictOf (redactDict d)).serializable = false) :
    finishLog e action person orga co (some (PyVal.dictOf d)) =
      .ok ⟨some (mkEntry e action person orga co none), true⟩ := by
  simp [finishLog, checkAndRedact_dict, Except.bind, serializeGuard, hser]

/-- C4: when `log_action` is called with both snapshots: an empty
change-set with falsy (absent) explicit data is a silent no-op creating
no entry; explicit (truthy) data with an empty change-set creates exactly
one entry carrying that (redacted) data with no change-set key added
(redaction preserves the key set); a non-empty change-set is stored in
the persisted payload under the reserved `"changes"` key, appended
alongside the caller-supplied data. -/
theorem C4_record_with_snapshots :
    (∀ (e : Entity) (n : Int) (action : String) (data : Option PyVal)
       (person : Option String) (orga : Bool) (co : Option Entity)
       (od nd : Dict),
      e.pk = .pyint n → n ≠ 0 → strStartsWith action "." = false →
      compute_changes od nd = [] → optTruthy data = false →
      log_action e action data person orga co (some od) (some nd) =
        .ok ⟨none, false⟩) ∧
    (∀ (e : Entity) (n : Int) (action : String) (d : Dict)
       (person : Option String) (orga : Bool) (co : Option Entity)
       (od nd : Dict),
      e.pk = .pyint n → n ≠ 0 → strStartsWith action "." = false →
      compute_changes od nd = [] → d ≠ [] →
      (PyVal.dictOf (redactDict d)).serializable = true →
      log_action e action (some (PyVal.dictOf d)) person orga co
          (some od) (some nd) =
        .ok ⟨some (mkEntry e action person orga co
          (some (PyVal.dictOf (redactDict d)))), false⟩ ∧
      dictKeys (redactDict d) = dictKeys d) ∧
    (∀ (e : Entity) (n : Int) (action : String) (d : Dict)
       (person : Option String) (orga : Bool) (co : Option Entity)
       (od nd : Dict),
      e.pk = .pyint n → n ≠ 0 → strStartsWith action "." = false →
      compute_changes od nd ≠ [] → "changes" ∉ dictKeys d →
      (PyVal.dictOf (redactDict (d ++ [("changes",
          PyVal.dictOf (compute_changes od nd))]))).serializable = true →
      log_action e action (some (PyVal.dictOf d)) person orga co
          (some od) (some nd) =
        .ok ⟨some (mkEntry e action person orga co
          (some (PyVal.dictOf (redactDict (d ++ [("changes",
            PyVal.dictOf (compute_changes od nd))]))))), false⟩ ∧
      dictGet (redactDict (d ++ [("changes",
          PyVal.dictOf (compute_changes od nd))])) "changes" =
        PyVal.dictOf (compute_changes od nd) ∧
      dictKeys (redactDict (d ++ [("changes",
          PyVal.dictOf (compute_changes od nd))])) =
        dictKeys d ++ ["changes"]) := by
  refine ⟨?_, ?_, ?_⟩
  · intro e n action data person orga co od nd hpk hn hact hch hdata
    simp [log_action, hpk, hact, pyIsInt, PyVal.truthy, hn, hch, hdata]
  · intro e n action d person orga co od nd hpk hn hact hch hd hser
    refine ⟨?_, dictKeys_redactDict d⟩
    cases d with
    | nil => exact absurd rfl hd
    | cons kv t =>
      have htr : optTruthy (some (PyVal.dictOf (kv :: t))) = true := by
        cases kv; rfl
      simp [log_action, hpk, hact, pyIsInt, PyVal.truthy, hn, hch, htr,
        finishLog_dict_ser e action person orga co (kv :: t) hser]
  · intro e n action d person orga co od nd hpk hn hact hch hmem hser
    have hset : dictSet d "changes" (PyVal.dictOf (compute_changes od nd)) =
        d ++ [("changes", PyVal.dictOf (compute_changes od nd))] :=
      dictSet_of_not_mem _ _ _ hmem
    have hsens : isSensitiveKey "changes" = false := by decide
    refine ⟨?_, ?_, ?_⟩
    · simp only [log_action, hpk, hact, pyIsInt, PyVal.truthy]
      simp only [assignChanges, toDict?_dictOf, hset]
      simp [hch, hn, Except.bind,
        finishLog_dict_ser e action person orga co
          (d ++ [("changes", PyVal.dictOf (compute_changes od nd))]) hser]
    · rw [dictGet_redactDict_not_sensitive _ _ hsens]
      exact dictGet_append_of_not_mem _ _ _ hmem
    · rw [dictKeys_redactDict, dictKeys_append]
      rfl

/-- Witness for C4 at concrete inputs: identical snapshots with no data
skip recording; explicit data with no changes records exactly that data;
a changed field is recorded under `"changes"` next to the caller data. -/
theorem C4_record_with_snapshots_witness :
    (log_action ⟨.pyint 1, none, none⟩ "act" none none false none
        (some [("a", .pystr "x")]) (some [("a", .pystr "x")]) =
      .ok ⟨none, false⟩) ∧
    (log_action ⟨.pyint 1, none, none⟩ "act"
        (some (PyVal.dictOf [("title", .pystr "T")])) none false none
        (some [("a", .pystr "x")]) (some [("a", .pystr "x")]) =
      .ok ⟨some (mkEntry ⟨.pyint 1, none, none⟩ "act" none false none
        (some (PyVal.dictOf (redactDict [("title", .pystr "T")])))), false⟩) ∧
    (log_action ⟨.pyint 1, none, none⟩ "act"
        (some (PyVal.dictOf [("note", .pystr "n")])) none false none
        (some [("a", .pystr "x")]) (some [("a", .pystr "y")]) =
      .ok ⟨some (mkEntry ⟨.pyint 1, none, none⟩ "act" none false none
        (some (PyVal.dictOf (redactDict ([("note", .pystr "n")] ++
          [("changes", PyVal.dictOf (compute_changes [("a", .pystr "x")]
            [("a", .pystr "y")]))]))))), false⟩) :=
  ⟨C4_record_with_snapshots.1 _ 1 _ _ _ _ _ _ _ rfl (by decide) (by decide)
      (by decide) rfl,
   (C4_record_with_snapshots.2.1 _ 1 _ _ _ _ _ _ _ rfl (by decide) (by decide)
      (by decide) (by decide) (by decide)).1,
   (C4_record_with_snapshots.2.2 _ 1 _ _ _ _ _ _ _ rfl (by decide) (by decide)
      (by decide) (by decide) (by decide)).1⟩

/-- C5: the payload persisted by `log_action` is exactly the redaction of
the supplied dictionary, and redaction acts pointwise: a top-level entry
whose key contains a configured sensitive substring and whose value is
truthy is stored as the fixed mask `"********"`; a sensitive key with a
falsy value, and every non-sensitive key, keep their original value. -/
theorem C5_sensitive_key_redaction :
    (∀ (e : Entity) (n : Int) (action : String) (d : Dict)
       (person : Option String) (orga : Bool) (co : Option Entity),
      e.pk = .pyint n → n ≠ 0 → strStartsWith action "." = false →
      (PyVal.dictOf (redactDict d)).serializable = true →
      log_action e action (some (PyVal.dictOf d)) person orga co none none =
        .ok ⟨some (mkEntry e action person orga co
          (some (PyVal.dictOf (redactDict d)))), false⟩) ∧
    (∀ (d : Dict) (k : String) (v : PyVal), (k, v) ∈ d →
      (isSensitiveKey k = true → v.truthy = true →
        (k, PyVal.pystr "********") ∈ redactDict d) ∧
      (isSensitiveKey k = true → v.truthy = false → (k, v) ∈ redactDict d) ∧
      (isSensitiveKey k = false → (k, v) ∈ redactDict d)) := by
  constructor
  · intro e n action d person orga co hpk hn hact hser
    simp [log_action, hpk, hact, pyIsInt, PyVal.truthy, hn,
      finishLog_dict_ser e action person orga co d hser]
  · intro d k v hmem
    refine ⟨?_, ?_, ?_⟩
    · intro h1 h2
      exact List.mem_map.mpr ⟨(k, v), hmem, by simp [h1, h2]⟩
    · intro h1 h2
      exact List.mem_map.mpr ⟨(k, v), hmem, by simp [h1, h2]⟩
    · intro h1
      exact List.mem_map.mpr ⟨(k, v), hmem, by simp [h1]⟩

/-- Witness for C5: a truthy `"password"` value is persisted masked, a
falsy `"password"` value and a non-sensitive key unmodified. -/
theorem C5_sensitive_key_redaction_witness :
    (log_action ⟨.pyint 1, none, none⟩ "act"
        (some (PyVal.dictOf [("password", .pystr "hunter2"),
          ("old_password", .pystr ""), ("name", .pystr "x")]))
        none false none none none =
      .ok ⟨some (mkEntry ⟨.pyint 1, none, none⟩ "act" none false none
        (some (PyVal.dictOf (redactDict [("password", .pystr "hunter2"),
          ("old_password", .pystr ""), ("name", .pystr "x")])))), false⟩) ∧
    ("password", PyVal.pystr "********") ∈
      redactDict [("password", .pystr "hunter2"),
        ("old_password", .pystr ""), ("name", .pystr "x")] ∧
    ("old_password", PyVal.pystr "") ∈
      redactDict [("password", .pystr "hunter2"),
        ("old_password", .pystr ""), ("name", .pystr "x")] ∧
    ("name", PyVal.pystr "x") ∈
      redactDict [("password", .pystr "hunter2"),
        ("old_password", .pystr ""), ("name", .pystr "x")] :=
  ⟨C5_sensitive_key_redaction.1 _ 1 _ _ _ _ _ rfl (by decide) (by decide)
      (by decide),
   (C5_sensitive_key_redaction.2 _ "password" (.pystr "hunter2")
      (by decide)).1 (by decide) (by decide),
   (C5_sensitive_key_redaction.2 _ "old_password" (.pystr "")
      (by decide)).2.1 (by decide) (by decide),
   (C5_sensitive_key_redaction.2 _ "name" (.pystr "x") (by decide)).2.2
      (by decide)⟩

/-- C6: when the final payload is not JSON-serializable, `log_action`
still returns successfully (`.ok`, no exception reaches the caller) and
creates the entry with a null payload, after emitting the diagnostic
warning. -/
theorem C6_unserializable_payload_degrades :
    (∀ (e : Entity) (n : Int) (action : String) (d : Dict)
       (person : Option String) (orga : Bool) (co : Option Entity),
      e.pk = .pyint n → n ≠ 0 → strStartsWith action "." = false →
      (PyVal.dictOf (redactDict d)).serializable = false →
      log_action e action (some (PyVal.dictOf d)) person orga co none none =
        .ok ⟨some (mkEntry e action person orga co none), true⟩) ∧
    (∀ (e : Entity) (n : Int) (action : String) (d : Dict)
       (person : Option String) (orga : Bool) (co : Option Entity)
       (od nd : Dict),
      e.pk = .pyint n → n ≠ 0 → strStartsWith action "." = false →
      compute_changes od nd ≠ [] → "changes" ∉ dictKeys d →
      (PyVal.dictOf (redactDict (d ++ [("changes",
          PyVal.dictOf (compute_changes od nd))]))).serializable = false →
      log_action e action (some (PyVal.dictOf d)) person orga co
          (some od) (some nd) =
        .ok ⟨some (mkEntry e action person orga co none), true⟩) := by
  constructor
  · intro e n action d person orga co hpk hn hact hser
    simp [log_action, hpk, hact, pyIsInt, PyVal.truthy, hn,
      finishLog_dict_bad e action person orga co d hser]
  · intro e n action d person orga co od nd hpk hn hact hch hmem hser
    have hset : dictSet d "changes" (PyVal.dictOf (compute_changes od nd)) =
        d ++ [("changes", PyVal.dictOf (compute_changes od nd))] :=
      dictSet_of_not_mem _ _ _ hmem
    simp only [log_action, hpk, pyIsInt, PyVal.truthy]
    simp only [assignChanges, toDict?_dictOf, hset]
    simp [hch, hn, hact, Except.bind,
      finishLog_dict_bad e action person orga co
        (d ++ [("changes", PyVal.dictOf (compute_changes od nd))]) hser]

/-- Witness for C6: a payload holding a non-serializable object is
logged as an entry with a null payload and a warning, without raising. -/
theorem C6_unserializable_payload_degrades_witness :
    log_action ⟨.pyint 1, none, none⟩ "act"
        (some (PyVal.dictOf [("x", .pyobj "socket")])) none false none
        none none =
      .ok ⟨some (mkEntry ⟨.pyint 1, none, none⟩ "act" none false none none),
        true⟩ :=
  C6_unserializable_payload_degrades.1 _ 1 _ _ _ _ _ rfl (by decide)
    (by decide) (by decide)

/-- C10: an entity whose primary key is set but not an integer is
silently skipped by `log_action` — no entry, nothing returned — exactly
like an entity with no (falsy) primary key: the accepted identity
precondition is strictly "integer primary key". -/
theorem C10_non_integer_pk_noop :
    (∀ (e : Entity) (action : String) (data : Option PyVal)
       (person : Option String) (orga : Bool) (co : Option Entity)
       (od nd : Option Dict),
      e.pk.truthy = true → pyIsInt e.pk = false →
      log_action e action data person orga co od nd = .ok ⟨none, false⟩) ∧
    (∀ (e : Entity) (action : String) (data : Option PyVal)
       (person : Option String) (orga : Bool) (co : Option Entity)
       (od nd : Option Dict),
      e.pk.truthy = false →
      log_action e action data person orga co od nd = .ok ⟨none, false⟩) := by
  constructor
  · intro e action data person orga co od nd h1 h2
    simp [log_action, h1, h2]
  · intro e action data person orga co od nd h1
    simp [log_action, h1]

/-- Witness for C10: a string primary key is skipped, exactly like an
unsaved entity. -/
theorem C10_non_integer_pk_noop_witness :
    (log_action ⟨.pystr "a1b2", none, none⟩ "act"
        (some (PyVal.dictOf [("x", .pyint 1)])) none false none none none =
      .ok ⟨none, false⟩) ∧
    (log_action ⟨.pynone, none, none⟩ "act"
        (some (PyVal.dictOf [("x", .pyint 1)])) none false none none none =
      .ok ⟨none, false⟩) :=
  ⟨C10_non_integer_pk_noop.1 _ _ _ _ _ _ _ _ (by decide) (by decide),
   C10_non_integer_pk_noop.2 _ _ _ _ _ _ _ _ (by decide)⟩

/-! ## Agenda predicate lemmas -/

theorem schedule_eval (u : AgendaUser) (s : Submission) (n : Int)
    (ev : AgendaEvent) (hpk : s.pk = some n) (hev : s.event = some ev) :
    is_submission_visible_via_schedule u (some s) =
      .ok ((ev.is_public && ev.show_schedule && ev.has_current_schedule) &&
        (match s.slot with | none => false | some sl => sl.is_visible)) := by
  simp only [is_submission_visible_via_schedule, hpk, hev, evTargetOfEvent,
    Option.map_some', is_agenda_visible, Except.bind]
  cases hav : (ev.is_public && ev.show_schedule && ev.has_current_schedule) <;>
    cases hslot : s.slot <;> simp [hav, hslot]

theorem schedule_ok (u : AgendaUser) (s : Submission) (h : s.event.isSome) :
    ∃ b, is_submission_visible_via_schedule u (some s) = .ok b := by
  obtain ⟨ev, hev⟩ := Option.isSome_iff_exists.mp h
  cases hpk : s.pk with
  | none => exact ⟨false, by simp [is_submission_visible_via_schedule, hpk]⟩
  | some n => exact ⟨_, schedule_eval u s n ev hpk hev⟩

theorem featured_ok (u : AgendaUser) (s : Submission) :
    ∃ b, is_submission_visible_via_featured u (some s) = .ok b := by
  simp only [is_submission_visible_via_featured]
  by_cases h : s.is_featured = true
  · exact ⟨are_featured_submissions_visible u s.event, by simp [h]⟩
  · exact ⟨false, by simp [h]⟩

theorem viewableLoop_iff (u : AgendaUser) (l : List Submission)
    (hok : ∀ s ∈ l, s.event.isSome) :
    (viewableLoop u l = .ok true ↔
      ∃ s ∈ l, is_submission_visible_via_schedule u (some s) = .ok true ∨
        is_submission_visible_via_featured u (some s) = .ok true) := by
  induction l with
  | nil => simp [viewableLoop]
  | cons s rest ih =>
    have hs : s.event.isSome := hok s (by simp)
    have hrest : ∀ x ∈ rest, x.event.isSome := fun x hx => hok x (by simp [hx])
    obtain ⟨b1, hb1⟩ := schedule_ok u s hs
    obtain ⟨b2, hb2⟩ := featured_ok u s
    cases b1 with
    | true => simp [viewableLoop, hb1, Except.bind]
    | false =>
      cases b2 with
      | true => simp [viewableLoop, hb1, hb2, Except.bind]
      | false => simp [viewableLoop, hb1, hb2, Except.bind, ih hrest]

/-- Counterexample to C7 as stated: `is_agenda_visible` dereferences
`event.event` (rules.py:34) before any null check, so on a null target it
raises `AttributeError` instead of returning `False`. -/
theorem C7_counterexample :
    is_agenda_visible ⟨0⟩ none = .error "AttributeError" := rfl

/-- C7 amended: the three submission-targeted agenda predicates return
`False` without raising on a null target (and on a wrapper whose
`submission` relation is unset), `is_agenda_visible` returns `False`
when the target's nested `event` relation is unset, and a submission
whose assigned slot is missing is not visible via the schedule; but
`is_agenda_visible` itself raises `AttributeError` on a literally null
target. -/
theorem C7_absent_target_handling :
    (∀ u : AgendaUser, is_submission_visible_via_schedule u none = .ok false) ∧
    (∀ u : AgendaUser, is_submission_visible_via_featured u none = .ok false) ∧
    (∀ u : AgendaUser, is_agenda_submission_visible u none = .ok false) ∧
    (∀ u : AgendaUser,
      is_agenda_submission_visible u (some (.wrapper none)) = .ok false) ∧
    (∀ u : AgendaUser, is_agenda_visible u (some ⟨none⟩) = .ok false) ∧
    (∀ (u : AgendaUser) (s : Submission) (ev : AgendaEvent),
      s.slot = none → s.event = some ev →
      is_submission_visible_via_schedule u (some s) = .ok false) ∧
    (∀ u : AgendaUser, is_agenda_visible u none = .error "AttributeError") := by
  refine ⟨fun u => rfl, fun u => rfl, fun u => rfl, fun u => rfl, fun u => rfl,
    ?_, fun u => rfl⟩
  intro u s ev hslot hev
  cases hpk : s.pk with
  | none => simp [is_submission_visible_via_schedule, hpk]
  | some n => simp [schedule_eval u s n ev hpk hev, hslot]

/-- Witness for C7 amended, at a concrete user and submission. -/
theorem C7_absent_target_handling_witness :
    is_submission_visible_via_schedule ⟨0⟩
        (some { pk := some 1, is_featured := false,
                event := some { is_public := true, show_schedule := true,
                                has_current_schedule := true,
                                show_featured := true },
                slot := none }) = .ok false ∧
    is_agenda_submission_visible ⟨0⟩ none = .ok false :=
  ⟨C7_absent_target_handling.2.2.2.2.2.1 ⟨0⟩ _ _ rfl rfl,
   C7_absent_target_handling.2.2.1 ⟨0⟩⟩

/-- C8: a speaker profile is viewable iff at least one submission linked
to it within its event is visible via the schedule path or the featured
path (an existential check over the linked collection); in particular it
is not viewable when the linked set is empty. -/
theorem C8_profile_viewable (u : AgendaUser) (profile : SpeakerProfile)
    (hok : ∀ s ∈ profileSubmissions profile, s.event.isSome) :
    (is_viewable_profile u profile = .ok true ↔
      ∃ s ∈ profileSubmissions profile,
        is_submission_visible_via_schedule u (some s) = .ok true ∨
        is_submission_visible_via_featured u (some s) = .ok true) ∧
    (profileSubmissions profile = [] →
      is_viewable_profile u profile = .ok false) := by
  constructor
  · exact viewableLoop_iff u (profileSubmissions profile) hok
  · intro hempty
    simp [is_viewable_profile, hempty, viewableLoop]

/-- Witness for C8: a profile with one linked schedule-visible submission
is viewable; a profile with no linked submissions is not. -/
theorem C8_profile_viewable_witness :
    is_viewable_profile ⟨7⟩
        { id := 3, event_submissions :=
          [{ sub := { pk := some 1, is_featured := false,
                      event := some { is_public := true,
                                      show_schedule := true,
                                      has_current_schedule := true,
                                      show_featured := false },
                      slot := some { is_visible := true } },
             speaker_profile_ids := [3] }] } = .ok true ∧
    is_viewable_profile ⟨7⟩ { id := 3, event_submissions := [] } = .ok false :=
  ⟨(C8_profile_viewable ⟨7⟩ _ (by decide)).1.mpr
    ⟨{ pk := some 1, is_featured := false,
       event := some { is_public := true, show_schedule := true,
                       has_current_schedule := true, show_featured := false },
       slot := some { is_visible := true } },
     by decide, Or.inl (by rfl)⟩,
   (C8_profile_viewable ⟨7⟩ _ (by decide)).2 rfl⟩

/-! ## Retention sweep theorems -/

/-- C1: a sweep invoked with an age threshold strictly below 90 raises
the hard validation error and performs no side effects whatsoever — the
log table, archive contents and metadata are returned exactly as they
were — regardless of dry-run flag, tenant filter, archive destination or
batch size. -/
theorem C1_retention_floor (opts : SweepOptions) (events : List String)
    (now : Int) (st : SweepState) (h : opts.older_than_days < 90) :
    handle opts events now st =
      { state := st
        err := some "Cannot delete logs less than 90 days old (safety limit)."
        archived := 0, deleted := 0, processed := 0 } := by
  simp [handle, h]

/-- Witness for C1: threshold 30 with matching old entries, an archive
destination and a confirmed run still errors and changes nothing. -/
theorem C1_retention_floor_witness :
    handle { older_than_days := 30, event_slug := none,
             archive_path := some "/archive", dry_run := false,
             batch_size := 1000, skip_confirmation := true,
             confirm_answer := true } [] 1000
        { logs := [{ id := 1, timestamp := 0, event := none, person := none,
                     object_id := 1, action_type := "x", data := none,
                     is_orga_action := false }],
          archive_lines := [], archive_file_created := false,
          metadata := none } =
      { state := { logs := [{ id := 1, timestamp := 0, event := none,
                              person := none, object_id := 1,
                              action_type := "x", data := none,
                              is_orga_action := false }],
                   archive_lines := [], archive_file_created := false,
                   metadata := none }
        err := some "Cannot delete logs less than 90 days old (safety limit)."
        archived := 0, deleted := 0, processed := 0 } :=
  C1_retention_floor _ _ _ _ (by decide)

theorem sweepLoop_dry (cutoff : Int) (slug : Option String)
    (batch_size : Nat) (total_count : Nat) :
    ∀ (fuel : Nat) (logs archive : List LogRow)
      (archived deleted processed : Nat),
      ∃ p, sweepLoop cutoff slug batch_size true false total_count fuel
        logs archive archived deleted processed =
        (logs, archive, archived, deleted, p) := by
  intro fuel
  induction fuel with
  | zero =>
    intro logs archive a d p
    exact ⟨p, rfl⟩
  | succ n ih =>
    intro logs archive a d p
    by_cases h1 : p < total_count
    · by_cases h2 : sliceIds logs cutoff slug p batch_size = []
      · exact ⟨p, by simp [sweepLoop, h1, h2]⟩
      · obtain ⟨q, hq⟩ := ih logs archive a d
          (p + (sliceIds logs cutoff slug p batch_size).length)
        exact ⟨q, by simp [sweepLoop, h1, h2, hq]⟩
    · exact ⟨p, by simp [sweepLoop, h1]⟩

/-- C9: a dry-run sweep leaves the whole world unchanged — the stored
entries are exactly the same after the run as before it, and no archive
line and no metadata file is written — even when entries match the
cutoff and tenant filter. -/
theorem C9_dry_run_no_writes (opts : SweepOptions) (events : List String)
    (now : Int) (st : SweepState) (h : opts.dry_run = true) :
    (handle opts events now st).state = st := by
  obtain ⟨logs, archive, afc, md⟩ := st
  unfold handle
  by_cases h1 : opts.older_than_days < 90
  · simp [h1]
  · by_cases h2 : (match opts.event_slug with
      | none => true
      | some s => decide (s ∈ events)) = true
    · obtain ⟨q, hq⟩ := sweepLoop_dry (now - opts.older_than_days)
        opts.event_slug opts.batch_size
        (matchingLogs logs (now - opts.older_than_days)
          opts.event_slug).length
        (matchingLogs logs (now - opts.older_than_days)
          opts.event_slug).length
        logs archive 0 0 0
      simp [h1, h2, h, hq]
      split <;> rfl
    · simp [h1, h2, h]

/-- Witness for C9: a dry run over a table with matching old entries
leaves the state (entries, archive, metadata) untouched. -/
theorem C9_dry_run_no_writes_witness :
    (handle { older_than_days := 90, event_slug := none,
              archive_path := some "/archive", dry_run := true,
              batch_size := 1, skip_confirmation := true,
              confirm_answer := true } [] 1000
        { logs := [{ id := 1, timestamp := 0, event := none, person := none,
                     object_id := 1, action_type := "x", data := none,
                     is_orga_action := false },
                   { id := 2, timestamp := 0, event := none, person := none,
                     object_id := 2, action_type := "y", data := none,
                     is_orga_action := false }],
          archive_lines := [], archive_file_created := false,
          metadata := none }).state =
      { logs := [{ id := 1, timestamp := 0, event := none, person := none,
                   object_id := 1, action_type := "x", data := none,
                   is_orga_action := false },
                 { id := 2, timestamp := 0, event := none, person := none,
                   object_id := 2, action_type := "y", data := none,
                   is_orga_action := false }],
        archive_lines := [], archive_file_created := false,
        metadata := none } :=
  C9_dry_run_no_writes _ _ _ _ (by decide)

/-- C2 (code behavior at the failing input): with three matching entries
and batch size 1, a non-dry sweep deletes only the first and third rows
and leaves the second matching row in the table while reporting no
error — the offset-based slice (`[processed : processed + batch_size]`)
is taken of a live queryset that shrinks after each batch deletion, so
entries are skipped whenever the matches exceed one batch. -/
theorem C2_multi_batch_skips_entries :
    (handle { older_than_days := 90, event_slug := none, archive_path := none,
              dry_run := false, batch_size := 1, skip_confirmation := true,
              confirm_answer := false } [] 1000
        { logs := [{ id := 1, timestamp := 0, event := none, person := none,
                     object_id := 1, action_type := "x", data := none,
                     is_orga_action := false },
                   { id := 2, timestamp := 0, event := none, person := none,
                     object_id := 2, action_type := "y", data := none,
                     is_orga_action := false },
                   { id := 3, timestamp := 0, event := none, person := none,
                     object_id := 3, action_type := "z", data := none,
                     is_orga_action := false }],
          archive_lines := [], archive_file_created := false,
          metadata := none }).state.logs =
      [{ id := 2, timestamp := 0, event := none, person := none,
         object_id := 2, action_type := "y", data := none,
         is_orga_action := false }] ∧
    (handle { older_than_days := 90, event_slug := none, archive_path := none,
              dry_run := false, batch_size := 1, skip_confirmation := true,
              confirm_answer := false } [] 1000
        { logs := [{ id := 1, timestamp := 0, event := none, person := none,
                     object_id := 1, action_type := "x", data := none,
                     is_orga_action := false },
                   { id := 2, timestamp := 0, event := none, person := none,
                     object_id := 2, action_type := "y", data := none,
                     is_orga_action := false },
                   { id := 3, timestamp := 0, event := none, person := none,
                     object_id := 3, action_type := "z", data := none,
                     is_orga_action := false }],
          archive_lines := [], archive_file_created := false,
          metadata := none }).err = none ∧
    (handle { older_than_days := 90, event_slug := none, archive_path := none,
              dry_run := false, batch_size := 1, skip_confirmation := true,
              confirm_answer := false } [] 1000
        { logs := [{ id := 1, timestamp := 0, event := none, person := none,
                     object_id := 1, action_type := "x", data := none,
                     is_orga_action := false },
                   { id := 2, timestamp := 0, event := none, person := none,
                     object_id := 2, action_type := "y", data := none,
                     is_orga_action := false },
                   { id := 3, timestamp := 0, event := none, person := none,
                     object_id := 3, action_type := "z", data := none,
                     is_orga_action := false }],
          archive_lines := [], archive_file_created := false,
          metadata := none }).deleted = 2 := by
  refine ⟨by decide, by decide, by decide⟩
